import Mathlib

/-!
Verification of the host-side device server controller of scrcpy
(`app/src/server.c`), as a shallow embedding in Lean 4.

External collaborators (the adb wrapper, the network layer, the string
utilities) are not part of the embedded source; every call into them is
modelled by an oracle parameter (an environment record field) deciding the
outcome of that call, and the embedded control flow follows `server.c`.
-/

namespace Scrcpy

/-! ## Hexadecimal formatting (C `%08x`, used for `scid` and the socket name) -/

/-- One lowercase hexadecimal digit for a value below 16. -/
def hexChar (n : Nat) : Char :=
  if n < 10 then Char.ofNat (48 + n) else Char.ofNat (87 + n)

/-- Hexadecimal digits of a number, least significant first (empty for 0). -/
def toHexRev (n : Nat) : List Char :=
  if h : n = 0 then [] else hexChar (n % 16) :: toHexRev (n / 16)
  decreasing_by exact Nat.div_lt_self (Nat.pos_of_ne_zero h) (by omega)

/-- C simple `%08x` formatting: lowercase hexadecimal, zero-padded to (at
least) 8 characters. -/
def hex8 (n : Nat) : String :=
  let ds := (toHexRev n).reverse
  ⟨List.replicate (8 - ds.length) '0' ++ ds⟩

/-- Numeric value of one hexadecimal character (inverse of `hexChar`). -/
def hexValChar (c : Char) : Nat :=
  if c.toNat ≤ 57 then c.toNat - 48 else c.toNat - 87

/-- Numeric value of a most-significant-first hexadecimal digit list. -/
def hexVal : List Char → Nat
  | [] => 0
  | c :: cs => hexValChar c * 16 ^ cs.length + hexVal cs

/-- The sixteen lowercase hexadecimal digit characters. -/
def lowerHexDigits : List Char :=
  "0123456789abcdef".data

/-! ## Server parameters and the argv built by `execute_server` -/

/-- Client log levels (`enum sc_log_level`), restricted to the values
`log_level_to_server_string` accepts. -/
inductive LogLevel
  | verbose | debug | info | warn | error
deriving DecidableEq, Repr

/-- Source function `log_level_to_server_string`. -/
def log_level_to_server_string : LogLevel → String
  | .verbose => "verbose"
  | .debug => "debug"
  | .info => "info"
  | .warn => "warn"
  | .error => "error"

/-- Codec identifiers (`enum sc_codec`). -/
inductive Codec
  | h264 | h265 | av1 | opus | aac | raw
deriving DecidableEq, Repr

/-- Source function `sc_server_get_codec_name`. -/
def sc_server_get_codec_name : Codec → String
  | .h264 => "h264"
  | .h265 => "h265"
  | .av1 => "av1"
  | .opus => "opus"
  | .aac => "aac"
  | .raw => "raw"

/-- Video sources (`enum sc_video_source`). -/
inductive VideoSource
  | display | camera
deriving DecidableEq, Repr

/-- Audio sources (`enum sc_audio_source`). -/
inductive AudioSource
  | output | mic
deriving DecidableEq, Repr

/-- Camera positions (`enum sc_camera_position`). -/
inductive CameraPosition
  | all | front | back | external
deriving DecidableEq, Repr

/-- Modelled from the spec: `SC_LOCK_VIDEO_ORIENTATION_UNLOCKED`, the default
(no-lock) value of the orientation-lock option, declared in `options.h` which
is outside the embedded source. Only its role as the "default, not emitted"
value matters here. -/
def SC_LOCK_VIDEO_ORIENTATION_UNLOCKED : Int := -1

/-- The fields of `struct sc_server_params` read by `execute_server`.
C integer types (`uint32_t`, `uint16_t`) are represented as `Nat`; nullable
`const char *` fields as `Option String`. -/
structure ServerParams where
  scid : Nat
  log_level : LogLevel
  video : Bool
  audio : Bool
  control : Bool
  video_bit_rate : Nat
  audio_bit_rate : Nat
  video_codec : Codec
  audio_codec : Codec
  video_source : VideoSource
  audio_source : AudioSource
  max_size : Nat
  max_fps : Nat
  lock_video_orientation : Int
  crop : Option String
  display_id : Nat
  camera_id : Option String
  camera_position : CameraPosition
  show_touches : Bool
  stay_awake : Bool
  video_codec_options : Option String
  audio_codec_options : Option String
  video_encoder : Option String
  audio_encoder : Option String
  power_off_on_close : Bool
  clipboard_autosync : Bool
  downsize_on_error : Bool
  cleanup : Bool
  power_on : Bool
  list_encoders : Bool
  list_displays : Bool
  list_cameras : Bool
deriving Repr

/-- Keys of the dynamically formatted `key=value` arguments that
`execute_server` can emit (one constructor per `ADD_PARAM` key). -/
inductive ArgKey
  | scid | log_level | video | video_bit_rate | audio | audio_bit_rate
  | video_codec | audio_codec | video_source | audio_source
  | max_size | max_fps | lock_video_orientation | tunnel_forward
  | crop | control | display_id | camera_id | camera_position
  | show_touches | stay_awake | video_codec_options | audio_codec_options
  | video_encoder | audio_encoder | power_off_on_close | clipboard_autosync
  | downsize_on_error | cleanup | power_on
  | list_encoders | list_displays | list_cameras
deriving DecidableEq, Repr

/-- Value of a `key=value` argument: a string, an unsigned number (`%u`
family) or a signed number (`%i` family), kept unrendered so that value
comparisons are exact. -/
inductive ArgVal
  | str (s : String)
  | num (n : Nat)
  | inum (i : Int)
deriving DecidableEq, Repr

/-- Rendering of an argument value to the text placed after `=` in the C
command line. -/
def renderArgVal : ArgVal → String
  | .str s => s
  | .num n => toString n
  | .inum i => toString i

/-- The C spelling of each argument key. -/
def argKeyStr : ArgKey → String
  | .scid => "scid"
  | .log_level => "log_level"
  | .video => "video"
  | .video_bit_rate => "video_bit_rate"
  | .audio => "audio"
  | .audio_bit_rate => "audio_bit_rate"
  | .video_codec => "video_codec"
  | .audio_codec => "audio_codec"
  | .video_source => "video_source"
  | .audio_source => "audio_source"
  | .max_size => "max_size"
  | .max_fps => "max_fps"
  | .lock_video_orientation => "lock_video_orientation"
  | .tunnel_forward => "tunnel_forward"
  | .crop => "crop"
  | .control => "control"
  | .display_id => "display_id"
  | .camera_id => "camera_id"
  | .camera_position => "camera_position"
  | .show_touches => "show_touches"
  | .stay_awake => "stay_awake"
  | .video_codec_options => "video_codec_options"
  | .audio_codec_options => "audio_codec_options"
  | .video_encoder => "video_encoder"
  | .audio_encoder => "audio_encoder"
  | .power_off_on_close => "power_off_on_close"
  | .clipboard_autosync => "clipboard_autosync"
  | .downsize_on_error => "downsize_on_error"
  | .cleanup => "cleanup"
  | .power_on => "power_on"
  | .list_encoders => "list_encoders"
  | .list_displays => "list_displays"
  | .list_cameras => "list_cameras"

/-- The full rendered argv entry for one dynamic argument. -/
def renderArg (kv : ArgKey × ArgVal) : String :=
  argKeyStr kv.1 ++ "=" ++ renderArgVal kv.2

/-- Switch on `params->camera_position` inside `execute_server` (the
`SC_CAMERA_POSITION_ALL` case is unreachable there because of the guard). -/
def cameraPositionName : CameraPosition → String
  | .all => "all"
  | .front => "front"
  | .back => "back"
  | .external => "external"

/-- Emission rule and value for each dynamic `key=value` argument of
`execute_server`: `some v` when the key is emitted with value `v`, `none`
when the surrounding `if` suppresses it. Each equation transcribes one
`ADD_PARAM` site of the source. `tunnel_forward` is the
`server->tunnel.forward` flag read at the `ADD_PARAM("tunnel_forward=true")`
site. -/
def argOf (tunnel_forward : Bool) (p : ServerParams) : ArgKey → Option ArgVal
  | .scid => some (.str (hex8 p.scid))
  | .log_level => some (.str (log_level_to_server_string p.log_level))
  | .video => if p.video then none else some (.str "false")
  | .video_bit_rate =>
      if p.video_bit_rate ≠ 0 then some (.num p.video_bit_rate) else none
  | .audio => if p.audio then none else some (.str "false")
  | .audio_bit_rate =>
      if p.audio_bit_rate ≠ 0 then some (.num p.audio_bit_rate) else none
  | .video_codec =>
      if p.video_codec ≠ .h264 then
        some (.str (sc_server_get_codec_name p.video_codec)) else none
  | .audio_codec =>
      if p.audio_codec ≠ .opus then
        some (.str (sc_server_get_codec_name p.audio_codec)) else none
  | .video_source =>
      if p.video_source ≠ .display then some (.str "camera") else none
  | .audio_source =>
      if p.audio_source ≠ .output then some (.str "mic") else none
  | .max_size => if p.max_size ≠ 0 then some (.num p.max_size) else none
  | .max_fps => if p.max_fps ≠ 0 then some (.num p.max_fps) else none
  | .lock_video_orientation =>
      if p.lock_video_orientation ≠ SC_LOCK_VIDEO_ORIENTATION_UNLOCKED then
        some (.inum p.lock_video_orientation) else none
  | .tunnel_forward => if tunnel_forward then some (.str "true") else none
  | .crop => p.crop.map ArgVal.str
  | .control => if p.control then none else some (.str "false")
  | .display_id =>
      if p.video_source = .display ∧ p.display_id ≠ 0 then
        some (.num p.display_id) else none
  | .camera_id =>
      if p.video_source = .camera then p.camera_id.map ArgVal.str else none
  | .camera_position =>
      if p.video_source = .camera ∧ p.camera_position ≠ .all then
        some (.str (cameraPositionName p.camera_position)) else none
  | .show_touches => if p.show_touches then some (.str "true") else none
  | .stay_awake => if p.stay_awake then some (.str "true") else none
  | .video_codec_options => p.video_codec_options.map ArgVal.str
  | .audio_codec_options => p.audio_codec_options.map ArgVal.str
  | .video_encoder => p.video_encoder.map ArgVal.str
  | .audio_encoder => p.audio_encoder.map ArgVal.str
  | .power_off_on_close =>
      if p.power_off_on_close then some (.str "true") else none
  | .clipboard_autosync =>
      if p.clipboard_autosync then none else some (.str "false")
  | .downsize_on_error =>
      if p.downsize_on_error then none else some (.str "false")
  | .cleanup => if p.cleanup then none else some (.str "false")
  | .power_on => if p.power_on then none else some (.str "false")
  | .list_encoders => if p.list_encoders then some (.str "true") else none
  | .list_displays => if p.list_displays then some (.str "true") else none
  | .list_cameras => if p.list_cameras then some (.str "true") else none

/-- The keys in the exact order the `ADD_PARAM` sites appear in
`execute_server`. -/
def argKeyOrder : List ArgKey :=
  [.scid, .log_level, .video, .video_bit_rate, .audio, .audio_bit_rate,
   .video_codec, .audio_codec, .video_source, .audio_source,
   .max_size, .max_fps, .lock_video_orientation, .tunnel_forward,
   .crop, .control, .display_id, .camera_id, .camera_position,
   .show_touches, .stay_awake, .video_codec_options, .audio_codec_options,
   .video_encoder, .audio_encoder, .power_off_on_close, .clipboard_autosync,
   .downsize_on_error, .cleanup, .power_on,
   .list_encoders, .list_displays, .list_cameras]

/-- The ordered list of dynamically formatted `key=value` arguments that
`execute_server` appends after the fixed
`adb -s SERIAL shell CLASSPATH=... app_process / com.genymobile.scrcpy.Server VERSION`
prelude: the keys of `argKeyOrder` whose emission condition holds, each with
its value, in source order. -/
def buildArgs (tunnel_forward : Bool) (p : ServerParams) : List (ArgKey × ArgVal) :=
  argKeyOrder.filterMap fun k => (argOf tunnel_forward p k).map fun v => (k, v)

/-- The device socket name built by `run_server`:
`asprintf(&name, SC_SOCKET_NAME_PREFIX "%08x", params->scid)` where the name
prefix macro expands to `"scrcpy_"`. -/
def device_socket_name (scid : Nat) : String :=
  "scrcpy_" ++ hex8 scid

/-! ## OOM handling and string ownership in `execute_server` -/

/-- Index of the first `asprintf` call made to fail by the allocation oracle
`oom`, among the `n` dynamic-argument allocations actually reached. -/
def firstOomIdx (oom : Nat → Bool) (n : Nat) : Option Nat :=
  (List.range n).find? oom

/-- Outcome of `execute_server`: the returned pid (`none` = `SC_PROCESS_NONE`),
the dynamic strings allocated (`ADD_PARAM` results, in order), the `cmd[]`
slots from `dyn_idx` up to `count` that the `end:` loop frees (`none` is the
`NULL` terminator slot, freed as a no-op), and whether `sc_adb_execute` was
reached. -/
structure ExecOut where
  pid : Option Nat
  allocated : List (ArgKey × ArgVal)
  cmdTail : List (Option (ArgKey × ArgVal))
  spawned : Bool
deriving Repr

/-- Embedding of `execute_server` around an allocation oracle `oom` (call
index `i` fails iff `oom i`) and the spawn result `execPid` of
`sc_adb_execute`. On the first failed allocation, control jumps to `end:`
with the arguments allocated so far in `cmd[dyn_idx..count)`; otherwise all
arguments are emitted, the `NULL` terminator is appended, and the server is
spawned. -/
def execute_server (oom : Nat → Bool) (execPid : Option Nat)
    (tf : Bool) (p : ServerParams) : ExecOut :=
  let args := buildArgs tf p
  match firstOomIdx oom args.length with
  | some i =>
    { pid := none, allocated := args.take i,
      cmdTail := (args.take i).map some, spawned := false }
  | none =>
    { pid := execPid, allocated := args,
      cmdTail := args.map some ++ [none], spawned := true }

/-- The dynamic strings actually freed by the `end:` loop of
`execute_server` (`free(NULL)` on the terminator slot is a no-op). -/
def freedArgs (m : ExecOut) : List (ArgKey × ArgVal) :=
  m.cmdTail.filterMap id

/-- A concrete parameter record used by the evaluation witnesses: session id
`0x0a1b2c3d`, all three streams enabled, every other option left at its
default. -/
def sampleParams : ServerParams :=
  { scid := 0x0A1B2C3D, log_level := .info,
    video := true, audio := true, control := true,
    video_bit_rate := 0, audio_bit_rate := 0,
    video_codec := .h264, audio_codec := .opus,
    video_source := .display, audio_source := .output,
    max_size := 0, max_fps := 0,
    lock_video_orientation := SC_LOCK_VIDEO_ORIENTATION_UNLOCKED,
    crop := none, display_id := 0, camera_id := none,
    camera_position := .all, show_touches := false, stay_awake := false,
    video_codec_options := none, audio_codec_options := none,
    video_encoder := none, audio_encoder := none,
    power_off_on_close := false, clipboard_autosync := true,
    downsize_on_error := true, cleanup := true, power_on := true,
    list_encoders := false, list_displays := false, list_cameras := false }

/-- Allocation oracle for the C10 witness: the second `asprintf` fails. -/
def oomAtOne : Nat → Bool := fun i => i == 1

/-! ## Switching the device to TCP/IP transport -/

/-- Default adb TCP port (`SC_ADB_PORT_DEFAULT`). -/
def SC_ADB_PORT_DEFAULT : Nat := 5555

/-- C `asprintf("%s:%u", ip, port)` from `append_port`. -/
def append_port (ip : String) (port : Nat) : String :=
  ip ++ ":" ++ toString port

/-- Result of one `sc_adb_getprop` + `sc_str_parse_integer` round:
`none` when `getprop` returned no string, `some none` when the string does
not parse as an integer, `some (some v)` when it parses as `v`
(`sc_str_parse_integer` lives in `util/str.c`, outside the embedded source,
so its outcome is part of the oracle). -/
def PropRead : Type := Option (Option Int)

/-- Oracle for the TCP/IP switch: the device-IP probe, the sequence of
property reads (indexed by call number), whether each poll sleep was
interrupted by `stop()`, and the result of `adb tcpip`. -/
structure SwitchEnv where
  deviceIp : Option String
  prop : Nat → PropRead
  stopAt : Nat → Bool
  tcpipCmdOk : Bool

/-- Calls into the adb wrapper issued on the TCP/IP paths. -/
inductive SwEv
  | getIpCall
  | getpropCall (idx : Nat)
  | tcpipCall (port : Nat)
  | disconnectCall (addr : String) (silent : Bool)
  | connectCall (addr : String)
deriving DecidableEq, Repr

/-- Embedding of `get_adb_tcp_port` applied to one property read: 0 when the
property is absent, unparseable, negative or above `0xFFFF`; the parsed value
otherwise. -/
def get_adb_tcp_port (r : PropRead) : Nat :=
  match r with
  | none => 0
  | some none => 0
  | some (some v) => if v < 0 ∨ 0xFFFF < v then 0 else v.toNat

/-- The `do`/`while (--attempts)` polling loop of `wait_tcpip_mode_enabled`:
before each re-read at index `idx` the worker sleeps, observing `stop()`
through `sc_server_sleep` (`stopAt idx`). -/
def wait_loop (prop : Nat → PropRead) (stopAt : Nat → Bool) (expected : Nat)
    (idx : Nat) : Nat → Bool
  | 0 => false
  | attempts + 1 =>
    if stopAt idx then false
    else if get_adb_tcp_port (prop idx) = expected then true
    else wait_loop prop stopAt expected (idx + 1) attempts

/-- Embedding of `wait_tcpip_mode_enabled`: an immediate check of the
property at read index `idx`, then up to `attempts` sleep-and-recheck
rounds. -/
def wait_tcpip_mode_enabled (env : SwitchEnv) (expected idx attempts : Nat) :
    Bool :=
  if get_adb_tcp_port (env.prop idx) = expected then true
  else wait_loop env.prop env.stopAt expected (idx + 1) attempts

/-- Embedding of `sc_server_switch_to_tcpip`: probe the device IP, read
`service.adb.tcp.port` (read index 0); when it reads non-zero skip the
`adb tcpip` request and keep that port, otherwise request TCP/IP mode on
port 5555 and wait (read indices 1..41, 40 poll attempts at 250 ms) until
the property equals 5555. Returns the `IP:port` serial and the list of adb
calls issued. -/
def sc_server_switch_to_tcpip (env : SwitchEnv) :
    Option String × List SwEv :=
  match env.deviceIp with
  | none => (none, [SwEv.getIpCall])
  | some ip =>
    let adb_port := get_adb_tcp_port (env.prop 0)
    if adb_port ≠ 0 then
      (some (append_port ip adb_port), [SwEv.getIpCall, SwEv.getpropCall 0])
    else if !env.tcpipCmdOk then
      (none, [SwEv.getIpCall, SwEv.getpropCall 0,
              SwEv.tcpipCall SC_ADB_PORT_DEFAULT])
    else if wait_tcpip_mode_enabled env SC_ADB_PORT_DEFAULT 1 40 then
      (some (append_port ip SC_ADB_PORT_DEFAULT),
       [SwEv.getIpCall, SwEv.getpropCall 0, SwEv.tcpipCall SC_ADB_PORT_DEFAULT])
    else
      (none, [SwEv.getIpCall, SwEv.getpropCall 0,
              SwEv.tcpipCall SC_ADB_PORT_DEFAULT])

/-- Embedding of `sc_server_connect_to_tcpip`: silent `adb disconnect`, then
`adb connect` whose outcome is the oracle `connectOk`. -/
def sc_server_connect_to_tcpip (connectOk : Bool) (ip_port : String) :
    Bool × List SwEv :=
  (connectOk,
   [SwEv.disconnectCall ip_port true, SwEv.connectCall ip_port])

/-- Embedding of `sc_server_configure_tcpip_known_address`: append `:5555`
exactly when the address has no `:`, store the result as the serial, then
disconnect/connect. Returns (stored serial, success, adb calls). -/
def sc_server_configure_tcpip_known_address (addr : String)
    (connectOk : Bool) : Option String × Bool × List SwEv :=
  let ip_port :=
    if ':' ∈ addr.data then addr else append_port addr SC_ADB_PORT_DEFAULT
  let r := sc_server_connect_to_tcpip connectOk ip_port
  (some ip_port, r.1, r.2)

/-- Embedding of `sc_server_configure_tcpip_unknown_address`: adopt the
serial verbatim when the selected device already uses TCP/IP transport,
otherwise switch it and connect to the returned `IP:port`. -/
def sc_server_configure_tcpip_unknown_address (alreadyTcpip : Bool)
    (serial : String) (env : SwitchEnv) (connectOk : Bool) :
    Option String × Bool × List SwEv :=
  if alreadyTcpip then (some serial, true, [])
  else
    match sc_server_switch_to_tcpip env with
    | (none, tr) => (none, false, tr)
    | (some ip_port, tr) =>
      let r := sc_server_connect_to_tcpip connectOk ip_port
      (some ip_port, r.1, tr ++ r.2)

/-- Switch oracle exhibiting a device whose `service.adb.tcp.port` property
already reads 5556 (a non-default port). -/
def c2Env : SwitchEnv :=
  { deviceIp := some "192.168.1.7",
    prop := fun _ => some (some 5556),
    stopAt := fun _ => false,
    tcpipCmdOk := true }

/-- Switch oracle for the C9 witness: the property is first unparseable and
flips to 5555 from the third read on. -/
def c9Env : SwitchEnv :=
  { deviceIp := some "192.168.1.7",
    prop := fun i => if i < 3 then some none else some (some 5555),
    stopAt := fun _ => false,
    tcpipCmdOk := true }

/-! ## Establishing the stream sockets (`sc_server_connect_to`) -/

/-- Modelled from the spec: `SC_DEVICE_NAME_FIELD_LENGTH`, the fixed width
of the device-name field of the handshake, declared in a header outside the
embedded source; the spec's scenario 1 fixes it at 64 bytes. -/
def SC_DEVICE_NAME_FIELD_LENGTH : Nat := 64

/-- The `attempts` argument `sc_server_connect_to` passes to
`connect_to_server` in forward-tunnel mode. -/
def forwardConnectAttempts : Nat := 100

/-- The delay (in ms) between attempts that `sc_server_connect_to` passes to
`connect_to_server` (`SC_TICK_FROM_MS(100)`). -/
def forwardConnectDelayMs : Nat := 100

/-- Oracle outcome of one forward-connect attempt: whether `net_socket`
yields a socket, whether `net_connect_intr` succeeds, and the return value
of the 1-byte `net_recv_intr` liveness read. -/
structure Attempt where
  socketOk : Bool
  connectOk : Bool
  recvRet : Int
deriving DecidableEq, Repr

/-- Embedding of `connect_and_read_byte`: connect, then read one byte; any
read result other than exactly 1 byte is a failure. -/
def connect_and_read_byte (t : Attempt) : Bool :=
  t.connectOk && (t.recvRet == 1)

/-- One whole attempt of the `connect_to_server` loop body:
`net_socket` must yield a socket and `connect_and_read_byte` must succeed. -/
def attemptFullOk (t : Attempt) : Bool :=
  t.socketOk && connect_and_read_byte t

/-- The three typed streams. -/
inductive Stream
  | video | audio | control
deriving DecidableEq, Repr

/-- Network-level operations performed by the socket establisher. -/
inductive NetEv
  | acceptEv (s : Stream)
  | probeConnect (i : Nat)
  | probeRecv (i : Nat)
  | plainConnect (s : Stream)
  | tunnelClose
  | recvName (s : Stream)
deriving DecidableEq, Repr

/-- Probe events are the network operations issued by the
`connect_to_server` retry loop. -/
def isProbeEv : NetEv → Bool
  | .probeConnect _ => true
  | .probeRecv _ => true
  | _ => false

/-- Oracle for `sc_server_connect_to`: per-attempt outcomes of the forward
probe loop, interruption and stop observations, per-stream accept outcomes
(reverse mode), per-stream socket/connect outcomes for the subsequent plain
connects (forward mode), and the bytes produced by the device-name read
(`none` = read error). -/
structure ConnEnv where
  att : Nat → Attempt
  intrAt : Nat → Bool
  stopAt : Nat → Bool
  acceptOk : Stream → Bool
  plainSocketOk : Stream → Bool
  plainConnectOk : Stream → Bool
  nameRecv : Option (List Nat)

/-- The `do { ... } while (--attempts)` loop of `connect_to_server`:
per iteration, create a socket and probe (`connect_and_read_byte`); on
success return the attempt index; otherwise check interruption, sleep
(observing `stop()`), decrement and retry. Returns (successful attempt
index, number of attempts performed, network events issued). -/
def cts_loop (att : Nat → Attempt) (intrAt stopAt : Nat → Bool) :
    Nat → Nat → Option Nat × Nat × List NetEv
  | 0, _ => (none, 0, [])
  | fuel + 1, i =>
    let t := att i
    let evs :=
      if t.socketOk then
        NetEv.probeConnect i ::
          (if t.connectOk then [NetEv.probeRecv i] else [])
      else []
    if attemptFullOk t then (some i, 1, evs)
    else if intrAt i then (none, 1, evs)
    else if stopAt i then (none, 1, evs)
    else
      let r := cts_loop att intrAt stopAt fuel (i + 1)
      (r.1, r.2.1 + 1, evs ++ r.2.2)

/-- Embedding of `connect_to_server` (first forward connection, with the
liveness probe and the retry policy). -/
def connect_to_server (env : ConnEnv) (attempts : Nat) :
    Option Nat × Nat × List NetEv :=
  cts_loop env.att env.intrAt env.stopAt attempts 0

/-- Result of the establishment phase of `sc_server_connect_to` (everything
before the tunnel close): `success`, which of the three local socket
variables hold an open socket at the end (`ov`/`oa`/`oc`, i.e. are not
`SC_SOCKET_NONE`), and the network events issued. -/
structure EstOut where
  success : Bool
  ov : Bool
  oa : Bool
  oc : Bool
  trace : List NetEv
deriving Repr

/-- The establishment phase of `sc_server_connect_to`. Reverse mode: accept
the enabled streams in the order video, audio, control. Forward mode: the
first enabled stream is served by `connect_to_server` (with its 1-byte
probes); each further enabled stream gets a fresh socket and a plain
`net_connect_intr` without a probe. -/
def sc_establish (forward video audio control : Bool) (env : ConnEnv) :
    EstOut :=
  if !forward then
    let tv := if video then [NetEv.acceptEv .video] else []
    if video && !env.acceptOk .video then
      ⟨false, false, false, false, tv⟩
    else
      let ta := tv ++ (if audio then [NetEv.acceptEv .audio] else [])
      if audio && !env.acceptOk .audio then
        ⟨false, video, false, false, ta⟩
      else
        let tc := ta ++ (if control then [NetEv.acceptEv .control] else [])
        if control && !env.acceptOk .control then
          ⟨false, video, audio, false, tc⟩
        else
          ⟨true, video, audio, control, tc⟩
  else
    let r := connect_to_server env forwardConnectAttempts
    match r.1 with
    | none => ⟨false, false, false, false, r.2.2⟩
    | some _ =>
      let ctrl : List NetEv → EstOut := fun tr =>
        if control && (video || audio) then
          if !env.plainSocketOk .control then
            ⟨false, video, audio, false, tr⟩
          else if !env.plainConnectOk .control then
            ⟨false, video, audio, true, tr ++ [NetEv.plainConnect .control]⟩
          else
            ⟨true, video, audio, control, tr ++ [NetEv.plainConnect .control]⟩
        else ⟨true, video, audio, control, tr⟩
      if audio && video then
        if !env.plainSocketOk .audio then
          ⟨false, video, false, false, r.2.2⟩
        else if !env.plainConnectOk .audio then
          ⟨false, video, true, false, r.2.2 ++ [NetEv.plainConnect .audio]⟩
        else ctrl (r.2.2 ++ [NetEv.plainConnect .audio])
      else ctrl r.2.2

/-- Embedding of `device_read_info`: read the fixed-width device-name field;
fewer bytes than the field width is a failure; on success the last byte of
the field is overwritten with NUL before the field is stored. -/
def device_read_info (recv : Option (List Nat)) : Option (List Nat) :=
  match recv with
  | none => none
  | some bs =>
    if bs.length < SC_DEVICE_NAME_FIELD_LENGTH then none
    else
      some ((bs.take SC_DEVICE_NAME_FIELD_LENGTH).set
              (SC_DEVICE_NAME_FIELD_LENGTH - 1) 0)

/-- Final state of `sc_server_connect_to`: success flag, which
`server->*_socket` fields were stored, which sockets the `fail:` label
closed, the tunnel state at return, the events issued, and the stored
device name. -/
structure ConnResult where
  ok : Bool
  videoSocket : Bool
  audioSocket : Bool
  controlSocket : Bool
  closed : List Stream
  tunnelEnabled : Bool
  trace : List NetEv
  deviceName : Option (List Nat)
deriving Repr

/-- The sockets closed by the `fail:` label, in source order, given which
local socket variables are open. -/
def connCleanup (v a c : Bool) : List Stream :=
  (if v then [Stream.video] else []) ++ (if a then [Stream.audio] else [])
    ++ (if c then [Stream.control] else [])

/-- The first established socket: video if enabled, else audio, else
control. -/
def firstStream (video audio : Bool) : Stream :=
  if video then .video else if audio then .audio else .control

/-- Embedding of `sc_server_connect_to`: establish the enabled sockets,
close the adb tunnel, read the device-name field from the first established
socket; on any failure close every open socket and, if still enabled, the
tunnel. -/
def sc_server_connect_to (forward video audio control : Bool)
    (env : ConnEnv) : ConnResult :=
  let e := sc_establish forward video audio control env
  if !e.success then
    { ok := false, videoSocket := false, audioSocket := false,
      controlSocket := false,
      closed := connCleanup e.ov e.oa e.oc,
      tunnelEnabled := false,
      trace := e.trace ++ [NetEv.tunnelClose],
      deviceName := none }
  else
    let fs := firstStream video audio
    let tr := e.trace ++ [NetEv.tunnelClose, NetEv.recvName fs]
    match device_read_info env.nameRecv with
    | none =>
      { ok := false, videoSocket := false, audioSocket := false,
        controlSocket := false,
        closed := connCleanup e.ov e.oa e.oc,
        tunnelEnabled := false, trace := tr, deviceName := none }
    | some nm =>
      { ok := true, videoSocket := video, audioSocket := audio,
        controlSocket := control,
        closed := [], tunnelEnabled := false, trace := tr,
        deviceName := some nm }

/-- Oracle for the C4 witness: every attempt connects, but the probe read
returns 0 bytes until attempt index 6, which reads the byte. -/
def c4Env : ConnEnv :=
  { att := fun j => if j == 6 then ⟨true, true, 1⟩ else ⟨true, true, 0⟩,
    intrAt := fun _ => false, stopAt := fun _ => false,
    acceptOk := fun _ => true, plainSocketOk := fun _ => true,
    plainConnectOk := fun _ => true,
    nameRecv := some (List.replicate 64 65) }

/-- Oracle where every network operation succeeds and the device sends a
full 64-byte name field. -/
def connEnvAllOk : ConnEnv :=
  { att := fun _ => ⟨true, true, 1⟩,
    intrAt := fun _ => false, stopAt := fun _ => false,
    acceptOk := fun _ => true, plainSocketOk := fun _ => true,
    plainConnectOk := fun _ => true,
    nameRecv := some (List.replicate 64 65) }

/-! ## The controller worker (`run_server`) and its callbacks -/

/-- The three listener callbacks. -/
inductive Callback
  | connectionFailed | connected | disconnected
deriving DecidableEq, Repr

/-- Oracle for one `run_server` run, one field per fallible phase:
`sc_adb_start_server`, `sc_adb_select_device`,
`sc_server_configure_tcpip_unknown_address`,
`sc_server_configure_tcpip_known_address`, `push_server`, the `execute_server`
call of the `list_*` path, the `asprintf` of the socket name,
`sc_adb_tunnel_open`, `execute_server`, `sc_process_observer_init`; plus
whether the remote process terminates before `sc_server_connect_to`
completes, and whether `sc_server_connect_to` succeeds. -/
structure RunEnv where
  adbStartOk : Bool
  selectOk : Bool
  configUnknownOk : Bool
  configKnownOk : Bool
  pushOk : Bool
  listExecOk : Bool
  socketNameOom : Bool
  tunnelOpenOk : Bool
  execOk : Bool
  observerInitOk : Bool
  earlyTerminate : Bool
  connectOk : Bool
deriving Repr

/-- The parameters of `run_server` that steer its control flow:
whether `tcpip_dst` is set, the `tcpip` flag, and the three `list_*`
query flags. -/
structure RunParams where
  tcpipDst : Bool
  tcpip : Bool
  list_encoders : Bool
  list_displays : Bool
  list_cameras : Bool
deriving Repr

/-- The `params->list_encoders || params->list_displays ||
params->list_cameras` test of `run_server`. -/
def listRequested (p : RunParams) : Bool :=
  p.list_encoders || p.list_displays || p.list_cameras

/-- The phases of `run_server` from `push_server` on, as the sequence of
listener callbacks fired plus the return code, following the source control
flow. The observer thread's `on_terminated` hook (which fires `on_disconnected`)
is linearized deterministically: once `sc_process_observer_init` succeeded,
every subsequent exit path terminates or waits for the process and joins the
observer, so `on_disconnected` fires exactly once — before
`on_connection_failed` when `sc_server_connect_to` fails (including the case
where the remote died early, whose `interrupt()` makes the connection phase
fail), and after `on_connected` on the success path. The `list_*` path fires
`on_connected` and returns without an observer, so nothing fires
`on_disconnected` there. -/
def run_server_tail (env : RunEnv) (p : RunParams) : List Callback × Int :=
  if !env.pushOk then ([.connectionFailed], -1)
  else if listRequested p then
    if !env.listExecOk then ([.connectionFailed], -1)
    else ([.connected], 0)
  else if env.socketNameOom then ([.connectionFailed], -1)
  else if !env.tunnelOpenOk then ([.connectionFailed], -1)
  else if !env.execOk then ([.connectionFailed], -1)
  else if !env.observerInitOk then ([.connectionFailed], -1)
  else if env.earlyTerminate || !env.connectOk then
    ([.disconnected, .connectionFailed], -1)
  else ([.connected, .disconnected], 0)

/-- Embedding of `run_server` up to device-serial resolution; the phases
from `push_server` on are `run_server_tail`. -/
def run_server (env : RunEnv) (p : RunParams) : List Callback × Int :=
  if !env.adbStartOk then ([.connectionFailed], -1)
  else
    let serialOk :=
      if !p.tcpipDst then
        env.selectOk && (if p.tcpip then env.configUnknownOk else true)
      else
        env.configKnownOk
    if !serialOk then ([.connectionFailed], -1)
    else run_server_tail env p

/-- Run oracle in which every phase succeeds. -/
def runEnvAllOk : RunEnv :=
  { adbStartOk := true, selectOk := true, configUnknownOk := true,
    configKnownOk := true, pushOk := true, listExecOk := true,
    socketNameOom := false, tunnelOpenOk := true, execOk := true,
    observerInitOk := true, earlyTerminate := false, connectOk := true }

/-- Parameters requesting an encoder listing (the `--list-encoders` path). -/
def listParams : RunParams :=
  { tcpipDst := false, tcpip := false,
    list_encoders := true, list_displays := false, list_cameras := false }

/-! ## Theorems -/

lemma hexValChar_hexChar : ∀ m, m < 16 → hexValChar (hexChar m) = m := by
  decide

lemma hexChar_mem_lowerHexDigits : ∀ m, m < 16 → hexChar m ∈ lowerHexDigits := by
  decide

lemma toHexRev_length_le : ∀ k n, n < 16 ^ k → (toHexRev n).length ≤ k := by
  intro k
  induction k with
  | zero =>
    intro n hn
    interval_cases n
    simp [toHexRev]
  | succ k ih =>
    intro n hn
    rw [toHexRev]
    split
    · simp
    · rename_i h
      simp only [List.length_cons]
      have : n / 16 < 16 ^ k := by
        rw [Nat.div_lt_iff_lt_mul (by norm_num)]
        calc n < 16 ^ (k + 1) := hn
        _ = 16 ^ k * 16 := by ring
      have := ih (n / 16) this
      omega

lemma toHexRev_mem : ∀ n, ∀ c ∈ toHexRev n, c ∈ lowerHexDigits := by
  intro n
  induction n using Nat.strong_induction_on with
  | _ n ih =>
    intro c hc
    rw [toHexRev] at hc
    split at hc
    · simp at hc
    · rename_i h
      rcases List.mem_cons.mp hc with h1 | h2
      · subst h1
        exact hexChar_mem_lowerHexDigits _ (Nat.mod_lt _ (by omega))
      · exact ih (n / 16) (Nat.div_lt_self (Nat.pos_of_ne_zero h) (by omega)) c h2

lemma hexVal_append_singleton (l : List Char) (c : Char) :
    hexVal (l ++ [c]) = 16 * hexVal l + hexValChar c := by
  induction l with
  | nil => simp [hexVal]
  | cons x xs ih =>
    simp [hexVal, ih, pow_succ]
    ring

lemma hexVal_reverse_toHexRev : ∀ n, hexVal (toHexRev n).reverse = n := by
  intro n
  induction n using Nat.strong_induction_on with
  | _ n ih =>
    rw [toHexRev]
    split
    · rename_i h; subst h; simp [hexVal]
    · rename_i h
      simp only [List.reverse_cons, hexVal_append_singleton]
      rw [ih (n / 16) (Nat.div_lt_self (Nat.pos_of_ne_zero h) (by omega)),
          hexValChar_hexChar _ (Nat.mod_lt _ (by omega))]
      omega

lemma hexVal_replicate_zero_append (k : Nat) (l : List Char) :
    hexVal (List.replicate k '0' ++ l) = hexVal l := by
  induction k with
  | zero => simp
  | succ k ih =>
    simp only [List.replicate_succ, List.cons_append, hexVal]
    have h0 : hexValChar '0' = 0 := by decide
    simp only [h0, Nat.zero_mul, Nat.zero_add]
    exact ih

lemma hex8_length (n : Nat) (h : n < 2 ^ 32) : (hex8 n).length = 8 := by
  have h16 : n < 16 ^ 8 := by norm_num at h ⊢; omega
  have hlen : (toHexRev n).length ≤ 8 := toHexRev_length_le 8 n h16
  show (List.replicate (8 - (toHexRev n).reverse.length) '0'
        ++ (toHexRev n).reverse).length = 8
  simp only [List.length_append, List.length_replicate, List.length_reverse]
  omega

lemma hex8_chars (n : Nat) : ∀ c ∈ (hex8 n).data, c ∈ lowerHexDigits := by
  intro c hc
  have : c ∈ List.replicate (8 - (toHexRev n).reverse.length) '0'
          ++ (toHexRev n).reverse := hc
  rcases List.mem_append.mp this with h1 | h2
  · have := List.eq_of_mem_replicate h1
    subst this
    decide
  · exact toHexRev_mem n c (List.mem_reverse.mp h2)

lemma hex8_val (n : Nat) : hexVal (hex8 n).data = n := by
  show hexVal (List.replicate (8 - (toHexRev n).reverse.length) '0'
        ++ (toHexRev n).reverse) = n
  rw [hexVal_replicate_zero_append, hexVal_reverse_toHexRev]

lemma codec_name_eq_h264_iff (c : Codec) :
    sc_server_get_codec_name c = "h264" ↔ c = .h264 := by
  cases c <;> decide

lemma codec_name_eq_opus_iff (c : Codec) :
    sc_server_get_codec_name c = "opus" ↔ c = .opus := by
  cases c <;> decide

lemma argKey_mem_order (k : ArgKey) : k ∈ argKeyOrder := by
  cases k <;> decide

lemma mem_buildArgs {tf : Bool} {p : ServerParams} {k : ArgKey} {v : ArgVal} :
    (k, v) ∈ buildArgs tf p ↔ argOf tf p k = some v := by
  unfold buildArgs
  rw [List.mem_filterMap]
  constructor
  · rintro ⟨a, _, ha⟩
    rw [Option.map_eq_some'] at ha
    obtain ⟨w, hw, heq⟩ := ha
    injection heq with h1 h2
    subst h1; subst h2
    exact hw
  · intro h
    exact ⟨k, argKey_mem_order k, by rw [h]; rfl⟩

/-- **C3.** The dynamic argument list built by `execute_server` contains
`scid=` and `log_level=` always; it contains `video=false`, `audio=false`,
`control=false`, `clipboard_autosync=false`, `downsize_on_error=false`,
`cleanup=false`, `power_on=false` exactly when the corresponding flag is
disabled; `video_codec=` exactly when the codec is not `h264`, `audio_codec=`
exactly when it is not `opus`; `video_bit_rate=`, `audio_bit_rate=`,
`max_size=`, `max_fps=` exactly when non-zero; and it never contains one of
those keys with its documented server-side default value. -/
theorem c3_argv_only_non_defaults (tf : Bool) (p : ServerParams) :
    ((ArgKey.scid, ArgVal.str (hex8 p.scid)) ∈ buildArgs tf p
      ∧ (ArgKey.log_level, ArgVal.str (log_level_to_server_string p.log_level))
          ∈ buildArgs tf p)
    ∧ ((ArgKey.video, ArgVal.str "false") ∈ buildArgs tf p ↔ p.video = false)
    ∧ ((ArgKey.audio, ArgVal.str "false") ∈ buildArgs tf p ↔ p.audio = false)
    ∧ ((ArgKey.control, ArgVal.str "false") ∈ buildArgs tf p ↔ p.control = false)
    ∧ ((ArgKey.clipboard_autosync, ArgVal.str "false") ∈ buildArgs tf p
        ↔ p.clipboard_autosync = false)
    ∧ ((ArgKey.downsize_on_error, ArgVal.str "false") ∈ buildArgs tf p
        ↔ p.downsize_on_error = false)
    ∧ ((ArgKey.cleanup, ArgVal.str "false") ∈ buildArgs tf p ↔ p.cleanup = false)
    ∧ ((ArgKey.power_on, ArgVal.str "false") ∈ buildArgs tf p ↔ p.power_on = false)
    ∧ ((∃ v, (ArgKey.video_codec, v) ∈ buildArgs tf p) ↔ p.video_codec ≠ .h264)
    ∧ ((∃ v, (ArgKey.audio_codec, v) ∈ buildArgs tf p) ↔ p.audio_codec ≠ .opus)
    ∧ ((∃ v, (ArgKey.video_bit_rate, v) ∈ buildArgs tf p) ↔ p.video_bit_rate ≠ 0)
    ∧ ((∃ v, (ArgKey.audio_bit_rate, v) ∈ buildArgs tf p) ↔ p.audio_bit_rate ≠ 0)
    ∧ ((∃ v, (ArgKey.max_size, v) ∈ buildArgs tf p) ↔ p.max_size ≠ 0)
    ∧ ((∃ v, (ArgKey.max_fps, v) ∈ buildArgs tf p) ↔ p.max_fps ≠ 0)
    ∧ (ArgKey.video, ArgVal.str "true") ∉ buildArgs tf p
    ∧ (ArgKey.audio, ArgVal.str "true") ∉ buildArgs tf p
    ∧ (ArgKey.control, ArgVal.str "true") ∉ buildArgs tf p
    ∧ (ArgKey.clipboard_autosync, ArgVal.str "true") ∉ buildArgs tf p
    ∧ (ArgKey.downsize_on_error, ArgVal.str "true") ∉ buildArgs tf p
    ∧ (ArgKey.cleanup, ArgVal.str "true") ∉ buildArgs tf p
    ∧ (ArgKey.power_on, ArgVal.str "true") ∉ buildArgs tf p
    ∧ (ArgKey.video_codec, ArgVal.str "h264") ∉ buildArgs tf p
    ∧ (ArgKey.audio_codec, ArgVal.str "opus") ∉ buildArgs tf p
    ∧ (ArgKey.video_bit_rate, ArgVal.num 0) ∉ buildArgs tf p
    ∧ (ArgKey.audio_bit_rate, ArgVal.num 0) ∉ buildArgs tf p
    ∧ (ArgKey.max_size, ArgVal.num 0) ∉ buildArgs tf p
    ∧ (ArgKey.max_fps, ArgVal.num 0) ∉ buildArgs tf p := by
  simp only [mem_buildArgs, argOf]
  refine ⟨⟨by simp, by simp⟩, ?_, ?_, ?_, ?_, ?_, ?_, ?_, ?_, ?_, ?_, ?_, ?_, ?_,
    ?_, ?_, ?_, ?_, ?_, ?_, ?_, ?_, ?_, ?_, ?_, ?_, ?_⟩
  · cases hb : p.video <;> simp [hb]
  · cases hb : p.audio <;> simp [hb]
  · cases hb : p.control <;> simp [hb]
  · cases hb : p.clipboard_autosync <;> simp [hb]
  · cases hb : p.downsize_on_error <;> simp [hb]
  · cases hb : p.cleanup <;> simp [hb]
  · cases hb : p.power_on <;> simp [hb]
  · by_cases hc : p.video_codec = .h264 <;> simp [hc]
  · by_cases hc : p.audio_codec = .opus <;> simp [hc]
  · by_cases hn : p.video_bit_rate = 0 <;> simp [hn]
  · by_cases hn : p.audio_bit_rate = 0 <;> simp [hn]
  · by_cases hn : p.max_size = 0 <;> simp [hn]
  · by_cases hn : p.max_fps = 0 <;> simp [hn]
  · cases hb : p.video <;> simp [hb]
  · cases hb : p.audio <;> simp [hb]
  · cases hb : p.control <;> simp [hb]
  · cases hb : p.clipboard_autosync <;> simp [hb]
  · cases hb : p.downsize_on_error <;> simp [hb]
  · cases hb : p.cleanup <;> simp [hb]
  · cases hb : p.power_on <;> simp [hb]
  · by_cases hc : p.video_codec = .h264 <;> simp [hc, codec_name_eq_h264_iff]
  · by_cases hc : p.audio_codec = .opus <;> simp [hc, codec_name_eq_opus_iff]
  · by_cases hn : p.video_bit_rate = 0 <;> simp [hn]
  · by_cases hn : p.audio_bit_rate = 0 <;> simp [hn]
  · by_cases hn : p.max_size = 0 <;> simp [hn]
  · by_cases hn : p.max_fps = 0 <;> simp [hn]

/-- **C6.** The remote socket name is the prefix `scrcpy_` followed by
exactly 8 lowercase hexadecimal digits whose value is the 32-bit `scid`, and
the same 8-digit string is the value `execute_server` passes under the
`scid=` key. -/
theorem c6_socket_name_format (tf : Bool) (p : ServerParams)
    (h : p.scid < 2 ^ 32) :
    device_socket_name p.scid = "scrcpy_" ++ hex8 p.scid
    ∧ (hex8 p.scid).length = 8
    ∧ (∀ c ∈ (hex8 p.scid).data, c ∈ lowerHexDigits)
    ∧ hexVal (hex8 p.scid).data = p.scid
    ∧ (ArgKey.scid, ArgVal.str (hex8 p.scid)) ∈ buildArgs tf p :=
  ⟨rfl, hex8_length _ h, hex8_chars _, hex8_val _, mem_buildArgs.mpr rfl⟩

/-- **C10.** If any dynamic argv allocation fails, `execute_server` returns
`SC_PROCESS_NONE` without spawning; and on every exit path the list of
dynamic strings freed by the cleanup loop is exactly the list of dynamic
strings allocated (each freed once). -/
theorem c10_oom_no_spawn_balanced_free (oom : Nat → Bool)
    (execPid : Option Nat) (tf : Bool) (p : ServerParams) :
    ((∃ i, firstOomIdx oom (buildArgs tf p).length = some i) →
      (execute_server oom execPid tf p).pid = none
      ∧ (execute_server oom execPid tf p).spawned = false)
    ∧ freedArgs (execute_server oom execPid tf p)
        = (execute_server oom execPid tf p).allocated := by
  unfold execute_server freedArgs
  cases h : firstOomIdx oom (buildArgs tf p).length with
  | some i =>
    simp [h, List.filterMap_map, Function.comp, -List.map_take]
  | none =>
    simp [h, List.filterMap_append, List.filterMap_map, Function.comp]

/-- Witness for C3: evaluation of the C3 theorem at `sampleParams`. -/
theorem c3_witness :
    (ArgKey.scid, ArgVal.str (hex8 sampleParams.scid))
      ∈ buildArgs true sampleParams
    ∧ (ArgKey.video, ArgVal.str "false") ∉ buildArgs true sampleParams
    ∧ (ArgKey.video, ArgVal.str "true") ∉ buildArgs true sampleParams := by
  have h := c3_argv_only_non_defaults true sampleParams
  refine ⟨h.1.1, fun hm => ?_, h.2.2.2.2.2.2.2.2.2.2.2.2.2.2.1⟩
  exact absurd ((h.2.1).mp hm) (by decide)

/-- Witness for C6: evaluation of the C6 theorem at `sampleParams`
(`scid = 0x0a1b2c3d`). -/
theorem c6_witness :
    sampleParams.scid < 2 ^ 32
    ∧ (device_socket_name sampleParams.scid
        = "scrcpy_" ++ hex8 sampleParams.scid
      ∧ (hex8 sampleParams.scid).length = 8
      ∧ (∀ c ∈ (hex8 sampleParams.scid).data, c ∈ lowerHexDigits)
      ∧ hexVal (hex8 sampleParams.scid).data = sampleParams.scid
      ∧ (ArgKey.scid, ArgVal.str (hex8 sampleParams.scid))
          ∈ buildArgs false sampleParams) :=
  ⟨by decide, c6_socket_name_format false sampleParams (by decide)⟩

/-- Witness for C10: evaluation of the C10 theorem at `sampleParams` with an
oracle failing the second allocation. -/
theorem c10_witness :
    (execute_server oomAtOne (some 7) true sampleParams).pid = none
    ∧ (execute_server oomAtOne (some 7) true sampleParams).spawned = false
    ∧ freedArgs (execute_server oomAtOne (some 7) true sampleParams)
        = (execute_server oomAtOne (some 7) true sampleParams).allocated := by
  have h := c10_oom_no_spawn_balanced_free oomAtOne (some 7) true sampleParams
  exact ⟨(h.1 ⟨1, by decide⟩).1, (h.1 ⟨1, by decide⟩).2, h.2⟩

lemma wait_loop_true_iff (prop : Nat → PropRead) (stopAt : Nat → Bool)
    (expected : Nat) (hstop : ∀ i, stopAt i = false) :
    ∀ attempts idx, wait_loop prop stopAt expected idx attempts = true
      ↔ ∃ j < attempts, get_adb_tcp_port (prop (idx + j)) = expected := by
  intro attempts
  induction attempts with
  | zero => intro idx; simp [wait_loop]
  | succ a ih =>
    intro idx
    rw [wait_loop]
    rw [hstop idx]
    simp only [Bool.false_eq_true, if_false]
    by_cases h : get_adb_tcp_port (prop idx) = expected
    · simp only [h, if_true]
      constructor
      · intro _
        exact ⟨0, by omega, by simpa using h⟩
      · intro _; trivial
    · simp only [h, if_false]
      rw [ih (idx + 1)]
      constructor
      · rintro ⟨j, hj, hv⟩
        refine ⟨j + 1, by omega, ?_⟩
        have e : idx + (j + 1) = idx + 1 + j := by omega
        rw [e]; exact hv
      · rintro ⟨j, hj, hv⟩
        match j with
        | 0 => exact absurd (by simpa using hv) h
        | j + 1 =>
          refine ⟨j, by omega, ?_⟩
          have e : idx + 1 + j = idx + (j + 1) := by omega
          rw [e]; exact hv

lemma wait_tcpip_true_iff (env : SwitchEnv) (expected idx attempts : Nat)
    (hstop : ∀ i, env.stopAt i = false) :
    wait_tcpip_mode_enabled env expected idx attempts = true
      ↔ ∃ k ≤ attempts, get_adb_tcp_port (env.prop (idx + k)) = expected := by
  unfold wait_tcpip_mode_enabled
  by_cases h : get_adb_tcp_port (env.prop idx) = expected
  · simp only [h, if_true]
    exact ⟨fun _ => ⟨0, by omega, by simpa using h⟩, fun _ => trivial⟩
  · simp only [h, if_false]
    rw [wait_loop_true_iff env.prop env.stopAt expected hstop attempts (idx + 1)]
    constructor
    · rintro ⟨j, hj, hv⟩
      refine ⟨j + 1, by omega, ?_⟩
      have e : idx + (j + 1) = idx + 1 + j := by omega
      rw [e]; exact hv
    · rintro ⟨k, hk, hv⟩
      match k with
      | 0 => exact absurd (by simpa using hv) h
      | j + 1 =>
        refine ⟨j, by omega, ?_⟩
        have e : idx + 1 + j = idx + (j + 1) := by omega
        rw [e]; exact hv

/-- **C2 (counterexample).** With `service.adb.tcp.port` reading 5556, the
property does not equal the default 5555, yet `sc_server_switch_to_tcpip`
skips the `adb tcpip` request, succeeds, and stores `IP:5556`, not
`IP:5555`. -/
theorem c2_counterexample :
    get_adb_tcp_port (c2Env.prop 0) ≠ SC_ADB_PORT_DEFAULT
    ∧ SwEv.tcpipCall SC_ADB_PORT_DEFAULT ∉ (sc_server_switch_to_tcpip c2Env).2
    ∧ (sc_server_switch_to_tcpip c2Env).1 = some "192.168.1.7:5556"
    ∧ (sc_server_switch_to_tcpip c2Env).1
        ≠ some (append_port "192.168.1.7" SC_ADB_PORT_DEFAULT) := by
  decide

/-- **C2 (amended).** In `sc_server_switch_to_tcpip` the tcpip-enable
request is skipped exactly when `service.adb.tcp.port` already reads as a
non-zero valid port, and the stored serial is `IP:port` with that
pre-existing port when it was non-zero, else `IP:5555`. -/
theorem c2_amended_tcpip_skip (env : SwitchEnv) (ip : String)
    (hip : env.deviceIp = some ip) :
    (SwEv.tcpipCall SC_ADB_PORT_DEFAULT ∉ (sc_server_switch_to_tcpip env).2
      ↔ get_adb_tcp_port (env.prop 0) ≠ 0)
    ∧ (get_adb_tcp_port (env.prop 0) ≠ 0 →
        (sc_server_switch_to_tcpip env).1
          = some (append_port ip (get_adb_tcp_port (env.prop 0))))
    ∧ (get_adb_tcp_port (env.prop 0) = 0 →
        ∀ s, (sc_server_switch_to_tcpip env).1 = some s →
          s = append_port ip SC_ADB_PORT_DEFAULT) := by
  unfold sc_server_switch_to_tcpip
  rw [hip]
  by_cases h0 : get_adb_tcp_port (env.prop 0) = 0
  · simp only [h0, ne_eq, not_true_eq_false, if_false, reduceIte]
    cases hc : env.tcpipCmdOk
    · simp
    · simp only [Bool.not_true, if_false, reduceIte]
      cases hw : wait_tcpip_mode_enabled env SC_ADB_PORT_DEFAULT 1 40 <;> simp
  · simp [h0]

/-- Witness for the amended C2 theorem, at the oracle `c2Env` whose property
already reads 5556. -/
theorem c2_witness :
    SwEv.tcpipCall SC_ADB_PORT_DEFAULT ∉ (sc_server_switch_to_tcpip c2Env).2
    ∧ (sc_server_switch_to_tcpip c2Env).1
        = some (append_port "192.168.1.7" (get_adb_tcp_port (c2Env.prop 0))) := by
  have h := c2_amended_tcpip_skip c2Env "192.168.1.7" rfl
  exact ⟨h.1.mpr (by decide), h.2.1 (by decide)⟩

/-- **C8.** `sc_server_configure_tcpip_known_address` appends the default
port 5555 exactly when the address contains no colon, stores the normalized
`HOST:PORT` as the serial, issues a silent disconnect and then a connect on
it, and succeeds exactly when the connect succeeds. -/
theorem c8_known_address (addr : String) (connectOk : Bool) :
    ∃ s, (sc_server_configure_tcpip_known_address addr connectOk).1 = some s
      ∧ (':' ∈ addr.data → s = addr)
      ∧ (':' ∉ addr.data → s = append_port addr SC_ADB_PORT_DEFAULT)
      ∧ (sc_server_configure_tcpip_known_address addr connectOk).2.2
          = [SwEv.disconnectCall s true, SwEv.connectCall s]
      ∧ ((sc_server_configure_tcpip_known_address addr connectOk).2.1 = true
          ↔ connectOk = true) := by
  by_cases h : ':' ∈ addr.data
  · refine ⟨addr, ?_, fun _ => rfl, fun hc => absurd h hc, ?_, ?_⟩ <;>
      simp [sc_server_configure_tcpip_known_address,
        sc_server_connect_to_tcpip, h]
  · refine ⟨append_port addr SC_ADB_PORT_DEFAULT, ?_, fun hc => absurd hc h,
      fun _ => rfl, ?_, ?_⟩ <;>
      simp [sc_server_configure_tcpip_known_address,
        sc_server_connect_to_tcpip, h]

/-- Witness for C8: evaluation at the port-less address `10.0.0.5`. -/
theorem c8_witness :
    (sc_server_configure_tcpip_known_address "10.0.0.5" true).1
      = some "10.0.0.5:5555"
    ∧ (sc_server_configure_tcpip_known_address "10.0.0.5" true).2.1 = true := by
  obtain ⟨s, h1, _, h3, _, h5⟩ := c8_known_address "10.0.0.5" true
  have hs : s = "10.0.0.5:5555" := by
    rw [h3 (by decide)]; decide
  exact ⟨by rw [h1, hs], h5.mpr rfl⟩

/-- **C9.** `get_adb_tcp_port` returns 0 whenever the property is absent,
unparseable, negative, or above `0xFFFF`; and when the first read returns 0
the switcher issues the tcpip-enable request and succeeds exactly when one
of the polling reads (up to 40 after the initial one) equals 5555. -/
theorem c9_bad_port_values (env : SwitchEnv) (ip : String)
    (hip : env.deviceIp = some ip) (hcmd : env.tcpipCmdOk = true)
    (hstop : ∀ i, env.stopAt i = false)
    (h0 : get_adb_tcp_port (env.prop 0) = 0) :
    (∀ r : PropRead,
      (r = none ∨ r = some none
        ∨ ∃ v, r = some (some v) ∧ (v < 0 ∨ 0xFFFF < v)) →
      get_adb_tcp_port r = 0)
    ∧ SwEv.tcpipCall SC_ADB_PORT_DEFAULT ∈ (sc_server_switch_to_tcpip env).2
    ∧ ((sc_server_switch_to_tcpip env).1
          = some (append_port ip SC_ADB_PORT_DEFAULT)
        ↔ ∃ k ≤ 40, get_adb_tcp_port (env.prop (1 + k)) = SC_ADB_PORT_DEFAULT) := by
  refine ⟨?_, ?_⟩
  · rintro r (rfl | rfl | ⟨v, rfl, hv⟩)
    · rfl
    · rfl
    · simp [get_adb_tcp_port, hv]
  · unfold sc_server_switch_to_tcpip
    rw [hip]
    simp only [h0, ne_eq, not_true_eq_false, if_false, reduceIte, hcmd,
      Bool.not_true]
    have hiff := wait_tcpip_true_iff env SC_ADB_PORT_DEFAULT 1 40 hstop
    cases hw : wait_tcpip_mode_enabled env SC_ADB_PORT_DEFAULT 1 40
    · rw [hw] at hiff
      simp at hiff
      simpa [hiff] using hiff
    · rw [hw] at hiff
      simp at hiff
      simp [hiff]

/-- Witness for C9: evaluation at `c9Env` (property flips on poll 2). -/
theorem c9_witness :
    get_adb_tcp_port (some none) = 0
    ∧ SwEv.tcpipCall SC_ADB_PORT_DEFAULT ∈ (sc_server_switch_to_tcpip c9Env).2
    ∧ (sc_server_switch_to_tcpip c9Env).1
        = some (append_port "192.168.1.7" SC_ADB_PORT_DEFAULT) := by
  have h := c9_bad_port_values c9Env "192.168.1.7" rfl rfl (fun i => rfl)
    (by decide)
  exact ⟨h.1 (some none) (Or.inr (Or.inl rfl)), h.2.1,
    h.2.2.mpr ⟨2, by omega, by decide⟩⟩

lemma cts_loop_count_le (att : Nat → Attempt) (intrAt stopAt : Nat → Bool) :
    ∀ fuel i, (cts_loop att intrAt stopAt fuel i).2.1 ≤ fuel := by
  intro fuel
  induction fuel with
  | zero => intro i; simp [cts_loop]
  | succ fuel ih =>
    intro i
    rw [cts_loop]
    split
    · simp
    · split
      · simp
      · split
        · simp
        · have := ih (i + 1)
          simp only []
          omega

lemma cts_loop_some_iff (att : Nat → Attempt) (intrAt stopAt : Nat → Bool)
    (hni : ∀ j, intrAt j = false) (hns : ∀ j, stopAt j = false) :
    ∀ fuel i0 i, ((cts_loop att intrAt stopAt fuel i0).1 = some i
      ↔ (i0 ≤ i ∧ i < i0 + fuel ∧ attemptFullOk (att i) = true
          ∧ ∀ j, i0 ≤ j → j < i → attemptFullOk (att j) = false)) := by
  intro fuel
  induction fuel with
  | zero =>
    intro i0 i
    simp only [cts_loop]
    constructor
    · intro h; exact absurd h (by simp)
    · rintro ⟨h1, h2, -, -⟩; omega
  | succ fuel ih =>
    intro i0 i
    rw [cts_loop]
    by_cases hok : attemptFullOk (att i0) = true
    · simp only [hok, if_true]
      constructor
      · intro h
        have hi : i0 = i := Option.some.inj h
        subst hi
        refine ⟨le_refl _, by omega, hok, ?_⟩
        intro j h1 h2
        exact absurd h2 (by omega)
      · rintro ⟨h1, h2, h3, h4⟩
        have hii : i = i0 := by
          by_contra hne
          have hf := h4 i0 (le_refl _) (by omega)
          rw [hf] at hok
          exact absurd hok (by simp)
        subst hii
        rfl
    · have hokf : attemptFullOk (att i0) = false := by
        simpa using hok
      simp only [hokf, Bool.false_eq_true, if_false, hni i0, hns i0]
      rw [ih (i0 + 1) i]
      constructor
      · rintro ⟨h1, h2, h3, h4⟩
        refine ⟨by omega, by omega, h3, ?_⟩
        intro j hj1 hj2
        by_cases hje : j = i0
        · subst hje; exact hokf
        · exact h4 j (by omega) hj2
      · rintro ⟨h1, h2, h3, h4⟩
        have hne : i ≠ i0 := by
          intro he
          subst he
          rw [h3] at hokf
          exact absurd hokf (by simp)
        refine ⟨by omega, by omega, h3, ?_⟩
        intro j hj1 hj2
        exact h4 j (by omega) hj2

lemma cts_loop_trace_probes (att : Nat → Attempt) (intrAt stopAt : Nat → Bool) :
    ∀ fuel i, ∀ e ∈ (cts_loop att intrAt stopAt fuel i).2.2,
      isProbeEv e = true := by
  intro fuel
  induction fuel with
  | zero => intro i e he; simp [cts_loop] at he
  | succ fuel ih =>
    intro i e he
    rw [cts_loop] at he
    have hevs : ∀ x ∈ (if (att i).socketOk then
        NetEv.probeConnect i ::
          (if (att i).connectOk then [NetEv.probeRecv i] else [])
      else ([] : List NetEv)), isProbeEv x = true := by
      intro x hx
      split at hx
      · rcases List.mem_cons.mp hx with rfl | hx2
        · rfl
        · split at hx2
          · rcases List.mem_singleton.mp hx2 with rfl
            rfl
          · simp at hx2
      · simp at hx
    split at he
    · exact hevs e he
    · split at he
      · exact hevs e he
      · split at he
        · exact hevs e he
        · rcases List.mem_append.mp he with h1 | h2
          · exact hevs e h1
          · exact ih (i + 1) e h2

lemma mem_probe_of_append (evs tail : List NetEv) (e : NetEv)
    (hp : isProbeEv e = true) (ht : ∀ x ∈ tail, isProbeEv x = false)
    (he : e ∈ evs ++ tail) : e ∈ evs := by
  rcases List.mem_append.mp he with h | h
  · exact h
  · rw [ht e h] at hp
    exact absurd hp (by simp)

lemma sc_establish_forward_probes (video audio control : Bool)
    (env : ConnEnv) :
    ∀ e ∈ (sc_establish true video audio control env).trace,
      isProbeEv e = true →
        e ∈ (connect_to_server env forwardConnectAttempts).2.2 := by
  intro e he hp
  rcases hm : (connect_to_server env forwardConnectAttempts).1 with - | k <;>
    cases hav : audio && video <;>
    cases hcc : control && (video || audio) <;>
    cases hsa : env.plainSocketOk Stream.audio <;>
    cases hca : env.plainConnectOk Stream.audio <;>
    cases hsc : env.plainSocketOk Stream.control <;>
    cases hcon : env.plainConnectOk Stream.control <;>
    simp only [sc_establish, hm, hav, hcc, hsa, hca, hsc, hcon,
      Bool.not_true, Bool.not_false, Bool.false_eq_true, Bool.true_eq_false,
      if_true, if_false, reduceIte] at he <;>
    first
      | exact he
      | exact mem_probe_of_append _ _ _ hp (by decide) he
      | (rw [List.append_assoc] at he
         exact mem_probe_of_append _ _ _ hp (by decide) he)

lemma connect_to_server_trace_probes (env : ConnEnv) (attempts : Nat) :
    ∀ e ∈ (connect_to_server env attempts).2.2, isProbeEv e = true :=
  cts_loop_trace_probes env.att env.intrAt env.stopAt attempts 0

lemma est_trace_no_tunnelClose (forward video audio control : Bool)
    (env : ConnEnv) :
    NetEv.tunnelClose ∉ (sc_establish forward video audio control env).trace := by
  intro he
  cases forward
  · revert he
    cases video <;> cases audio <;> cases control <;>
      cases hva : env.acceptOk Stream.video <;>
      cases haa : env.acceptOk Stream.audio <;>
      cases hca : env.acceptOk Stream.control <;>
      simp [sc_establish, hva, haa, hca]
  · revert he
    rcases hm : (connect_to_server env forwardConnectAttempts).1 with - | k <;>
      cases hav : audio && video <;>
      cases hcc : control && (video || audio) <;>
      cases hsa : env.plainSocketOk Stream.audio <;>
      cases hca2 : env.plainConnectOk Stream.audio <;>
      cases hsc : env.plainSocketOk Stream.control <;>
      cases hcon : env.plainConnectOk Stream.control <;>
      simp only [sc_establish, hm, hav, hcc, hsa, hca2, hsc, hcon,
        Bool.not_true, Bool.not_false, Bool.false_eq_true, Bool.true_eq_false,
        if_true, if_false, reduceIte] <;>
      intro he <;>
      (try rw [List.append_assoc] at he) <;>
      first
        | exact absurd (connect_to_server_trace_probes env forwardConnectAttempts
            _ he) (by simp [isProbeEv])
        | (rcases List.mem_append.mp he with h1 | h2
           · exact absurd (connect_to_server_trace_probes env
               forwardConnectAttempts _ h1) (by simp [isProbeEv])
           · simp at h2)

lemma est_opened_of_success (forward video audio control : Bool)
    (env : ConnEnv)
    (h : (sc_establish forward video audio control env).success = true) :
    (sc_establish forward video audio control env).ov = video
    ∧ (sc_establish forward video audio control env).oa = audio
    ∧ (sc_establish forward video audio control env).oc = control := by
  revert h
  cases forward
  · cases video <;> cases audio <;> cases control <;>
      cases hva : env.acceptOk Stream.video <;>
      cases haa : env.acceptOk Stream.audio <;>
      cases hca : env.acceptOk Stream.control <;>
      simp [sc_establish, hva, haa, hca]
  · rcases hm : (connect_to_server env forwardConnectAttempts).1 with - | k <;>
      cases hav : audio && video <;>
      cases hcc : control && (video || audio) <;>
      cases hsa : env.plainSocketOk Stream.audio <;>
      cases hca2 : env.plainConnectOk Stream.audio <;>
      cases hsc : env.plainSocketOk Stream.control <;>
      cases hcon : env.plainConnectOk Stream.control <;>
      simp only [sc_establish, hm, hav, hcc, hsa, hca2, hsc, hcon,
        Bool.not_true, Bool.not_false, Bool.false_eq_true, Bool.true_eq_false,
        if_true, if_false, reduceIte] <;>
      intro h <;> simp_all

lemma device_read_info_spec (recv : Option (List Nat)) (nm : List Nat)
    (h : device_read_info recv = some nm) :
    nm.length = SC_DEVICE_NAME_FIELD_LENGTH
    ∧ nm.get? (SC_DEVICE_NAME_FIELD_LENGTH - 1) = some 0 := by
  cases recv with
  | none => simp [device_read_info] at h
  | some bs =>
    simp only [device_read_info] at h
    by_cases hl : bs.length < SC_DEVICE_NAME_FIELD_LENGTH
    · rw [if_pos hl] at h
      exact absurd h (by simp)
    · rw [if_neg hl] at h
      have hx := Option.some.inj h
      subst hx
      have hlen64 : (bs.take SC_DEVICE_NAME_FIELD_LENGTH).length
          = SC_DEVICE_NAME_FIELD_LENGTH := by
        simp only [List.length_take]
        omega
      constructor
      · rw [List.length_set, hlen64]
      · exact List.get?_set_eq_of_lt 0 (by rw [hlen64]; decide)

/-- **C4.** In forward-tunnel mode the first socket is obtained by
`connect_to_server` with 100 attempts at 100 ms cadence: with no
interruption, attempt `i` is returned exactly when `i < 100`, attempt `i`
fully succeeded (socket, connect, and 1-byte probe read), and all earlier
attempts failed; at most 100 attempts are performed; an attempt succeeds
exactly when the connect succeeded and the probe read returned exactly one
byte (an empty or failed read fails the attempt); and every probe event of
the establishment phase belongs to the first-socket loop — the subsequent
connects issue no probe. -/
theorem c4_forward_connect_policy (env : ConnEnv) (i : Nat) (v a c : Bool)
    (hni : ∀ j, env.intrAt j = false) (hns : ∀ j, env.stopAt j = false) :
    forwardConnectAttempts = 100
    ∧ forwardConnectDelayMs = 100
    ∧ ((connect_to_server env forwardConnectAttempts).1 = some i
        ↔ i < 100 ∧ attemptFullOk (env.att i) = true
          ∧ ∀ j < i, attemptFullOk (env.att j) = false)
    ∧ (connect_to_server env forwardConnectAttempts).2.1 ≤ 100
    ∧ (∀ t : Attempt, attemptFullOk t = true
        ↔ (t.socketOk = true ∧ t.connectOk = true ∧ t.recvRet = 1))
    ∧ (∀ e ∈ (sc_establish true v a c env).trace, isProbeEv e = true →
        e ∈ (connect_to_server env forwardConnectAttempts).2.2) := by
  refine ⟨rfl, rfl, ?_, ?_, ?_, sc_establish_forward_probes v a c env⟩
  · have hl := cts_loop_some_iff env.att env.intrAt env.stopAt hni hns 100 0 i
    constructor
    · intro h
      obtain ⟨-, h2, h3, h4⟩ := hl.mp h
      exact ⟨by omega, h3, fun j hj => h4 j (by omega) hj⟩
    · rintro ⟨h1, h2, h3⟩
      exact hl.mpr ⟨by omega, by omega, h2, fun j hjge hj => h3 j hj⟩
  · exact cts_loop_count_le env.att env.intrAt env.stopAt 100 0
  · intro t
    unfold attemptFullOk connect_and_read_byte
    constructor
    · intro h
      simp only [Bool.and_eq_true, beq_iff_eq] at h
      exact ⟨h.1, h.2.1, h.2.2⟩
    · rintro ⟨h1, h2, h3⟩
      simp [h1, h2, h3]

/-- Witness for C4: at `c4Env` the loop returns attempt 6. -/
theorem c4_witness :
    (connect_to_server c4Env forwardConnectAttempts).1 = some 6 := by
  have h := c4_forward_connect_policy c4Env 6 true true true
    (fun j => rfl) (fun j => rfl)
  exact h.2.2.1.mpr ⟨by omega, by decide, by decide⟩

/-- **C7.** `sc_server_connect_to` returns with the tunnel disabled on every
path, and on the success path the tunnel close happens immediately after the
establishment phase and before the device-name read (the establishment phase
itself never closes the tunnel). -/
theorem c7_tunnel_always_closed (forward v a c : Bool) (env : ConnEnv) :
    (sc_server_connect_to forward v a c env).tunnelEnabled = false
    ∧ ((sc_server_connect_to forward v a c env).ok = true →
        (sc_server_connect_to forward v a c env).trace
          = (sc_establish forward v a c env).trace
            ++ [NetEv.tunnelClose, NetEv.recvName (firstStream v a)]
          ∧ NetEv.tunnelClose ∉ (sc_establish forward v a c env).trace) := by
  constructor
  · by_cases hsucc : (sc_establish forward v a c env).success = true
    · cases hdr : device_read_info env.nameRecv <;>
        simp [sc_server_connect_to, hsucc, hdr]
    · have hs : (sc_establish forward v a c env).success = false := by
        simpa using hsucc
      simp [sc_server_connect_to, hs]
  · intro hok
    by_cases hsucc : (sc_establish forward v a c env).success = true
    · cases hdr : device_read_info env.nameRecv with
      | none =>
        exfalso
        revert hok
        simp [sc_server_connect_to, hsucc, hdr]
      | some nm =>
        constructor
        · simp [sc_server_connect_to, hsucc, hdr]
        · exact est_trace_no_tunnelClose forward v a c env
    · exfalso
      revert hok
      simp [sc_server_connect_to, hsucc]

/-- Witness for C7: evaluation at `connEnvAllOk` in reverse mode with all
streams enabled. -/
theorem c7_witness :
    (sc_server_connect_to false true true true connEnvAllOk).tunnelEnabled
      = false
    ∧ ((sc_server_connect_to false true true true connEnvAllOk).trace
        = (sc_establish false true true true connEnvAllOk).trace
          ++ [NetEv.tunnelClose, NetEv.recvName (firstStream true true)]
      ∧ NetEv.tunnelClose
          ∉ (sc_establish false true true true connEnvAllOk).trace) := by
  have h := c7_tunnel_always_closed false true true true connEnvAllOk
  exact ⟨h.1, h.2 (by decide)⟩

/-- **C5.** After establishment, the device-name field is read from the
first established socket (video if enabled, else audio, else control); a
read error or fewer than `SC_DEVICE_NAME_FIELD_LENGTH` bytes makes
`sc_server_connect_to` fail, closing every opened stream socket with the
tunnel already disabled; on success the stored name is exactly the field
width long with a NUL at the field end. -/
theorem c5_device_name_header (forward v a c : Bool) (env : ConnEnv)
    (hest : (sc_establish forward v a c env).success = true) :
    NetEv.recvName (firstStream v a)
        ∈ (sc_server_connect_to forward v a c env).trace
    ∧ (∀ bs, env.nameRecv = some bs →
        bs.length < SC_DEVICE_NAME_FIELD_LENGTH →
        (sc_server_connect_to forward v a c env).ok = false
        ∧ (sc_server_connect_to forward v a c env).closed = connCleanup v a c
        ∧ (sc_server_connect_to forward v a c env).tunnelEnabled = false)
    ∧ (env.nameRecv = none →
        (sc_server_connect_to forward v a c env).ok = false
        ∧ (sc_server_connect_to forward v a c env).closed = connCleanup v a c
        ∧ (sc_server_connect_to forward v a c env).tunnelEnabled = false)
    ∧ ((sc_server_connect_to forward v a c env).ok = true →
        ∃ nm, (sc_server_connect_to forward v a c env).deviceName = some nm
          ∧ nm.length = SC_DEVICE_NAME_FIELD_LENGTH
          ∧ nm.get? (SC_DEVICE_NAME_FIELD_LENGTH - 1) = some 0) := by
  obtain ⟨hov, hoa, hoc⟩ := est_opened_of_success forward v a c env hest
  refine ⟨?_, ?_, ?_, ?_⟩
  · simp only [sc_server_connect_to, hest, Bool.not_true, Bool.false_eq_true,
      if_false]
    cases hdr : device_read_info env.nameRecv <;> simp
  · intro bs hbs hlen
    have hdr : device_read_info env.nameRecv = none := by
      simp [device_read_info, hbs, hlen]
    simp only [sc_server_connect_to, hest, Bool.not_true, Bool.false_eq_true,
      if_false, hdr]
    exact ⟨trivial, by rw [hov, hoa, hoc], trivial⟩
  · intro hnone
    have hdr : device_read_info env.nameRecv = none := by
      simp [device_read_info, hnone]
    simp only [sc_server_connect_to, hest, Bool.not_true, Bool.false_eq_true,
      if_false, hdr]
    exact ⟨trivial, by rw [hov, hoa, hoc], trivial⟩
  · intro hok
    cases hdr : device_read_info env.nameRecv with
    | none =>
      exfalso
      revert hok
      simp [sc_server_connect_to, hest, hdr]
    | some nm =>
      obtain ⟨hlen, hget⟩ := device_read_info_spec env.nameRecv nm hdr
      refine ⟨nm, ?_, hlen, hget⟩
      simp [sc_server_connect_to, hest, hdr]

/-- Witness for C5: evaluation at `connEnvAllOk` in reverse mode with all
streams enabled, where the device sends 64 bytes. -/
theorem c5_witness :
    ∃ nm, (sc_server_connect_to false true true true connEnvAllOk).deviceName
        = some nm
      ∧ nm.length = SC_DEVICE_NAME_FIELD_LENGTH
      ∧ nm.get? (SC_DEVICE_NAME_FIELD_LENGTH - 1) = some 0 := by
  have h := c5_device_name_header false true true true connEnvAllOk (by decide)
  exact h.2.2.2 (by decide)

lemma run_server_tail_patterns (env : RunEnv) (p : RunParams) :
    (run_server_tail env p).1 = [Callback.connectionFailed]
    ∨ (run_server_tail env p).1
        = [Callback.disconnected, Callback.connectionFailed]
    ∨ (run_server_tail env p).1 = [Callback.connected, Callback.disconnected]
    ∨ ((run_server_tail env p).1 = [Callback.connected]
        ∧ listRequested p = true) := by
  unfold run_server_tail
  cases hP : env.pushOk
  · simp
  · cases hL : listRequested p
    · cases hO : env.socketNameOom
      · cases hTu : env.tunnelOpenOk
        · simp
        · cases hE : env.execOk
          · simp
          · cases hOb : env.observerInitOk
            · simp
            · cases hEt : env.earlyTerminate
              · cases hC : env.connectOk
                · simp
                · simp
              · simp
      · simp
    · cases hLE : env.listExecOk
      · simp
      · simp [hL]

/-- **C1 (counterexample).** On the `list_*` query path the worker fires
`on_connected` and returns: neither `[on_connection_failed]` nor
`[on_connected, on_disconnected]` is observed, refuting the claimed
exactly-one-of-two-patterns invariant. -/
theorem c1_counterexample :
    (run_server runEnvAllOk listParams).1 = [Callback.connected]
    ∧ ¬((run_server runEnvAllOk listParams).1 = [Callback.connectionFailed]
        ∨ (run_server runEnvAllOk listParams).1
            = [Callback.connected, Callback.disconnected]) := by
  decide

/-- **C1 (amended).** Every run of the worker observes exactly one of:
`on_connection_failed` alone (failure before the observer was attached);
`on_disconnected` then `on_connection_failed` (failure of the connection
phase after the remote was spawned and its observer attached — including the
remote terminating early); `on_connected` then `on_disconnected` (success
path); or, only on the `list_*` query path, `on_connected` alone. -/
theorem c1_callback_patterns (env : RunEnv) (p : RunParams) :
    (run_server env p).1 = [Callback.connectionFailed]
    ∨ (run_server env p).1 = [Callback.disconnected, Callback.connectionFailed]
    ∨ (run_server env p).1 = [Callback.connected, Callback.disconnected]
    ∨ ((run_server env p).1 = [Callback.connected] ∧ listRequested p = true) := by
  unfold run_server
  cases hA : env.adbStartOk
  · simp
  · cases hD : p.tcpipDst
    · cases hS : env.selectOk
      · simp
      · cases hT : p.tcpip
        · simpa using run_server_tail_patterns env p
        · cases hU : env.configUnknownOk
          · simp
          · simpa using run_server_tail_patterns env p
    · cases hK : env.configKnownOk
      · simp
      · simpa using run_server_tail_patterns env p

end Scrcpy
